import Mathlib

/-!
# Verification of the URL-expander resolver (`src/main.cpp`)

Shallow embedding of the redirect-resolving program. The transport (libcurl)
is an external collaborator: it is modelled as a redirect chain from the
requested URL (`Network.chain hops`, the successive redirect targets, the last
element being the terminal non-redirect URL) or as a transport-level failure
(`Network.failure code`). The curl easy handle's per-call options are modelled
as an explicit record `CurlHandle` threaded through `expand_url`, mirroring
the `curl_easy_setopt` calls of the source.

Machine integers: C `long` / `int64_t` values are embedded as `Int`; the
narrowing conversion `long long -> int` (LP64: 64-bit to 32-bit) is `toInt32`,
wrapping modulo 2^32.
-/

/-- CURLcode `CURLE_OK` (numeric value 0). -/
def CURLE_OK : Nat := 0

/-- CURLcode `CURLE_FAILED_INIT` (numeric value 2), used by `expand_url` as the
sentinel for "transport succeeded but yielded no usable URL" (main.cpp:117). -/
def CURLE_FAILED_INIT : Nat := 2

/-- CURLcode `CURLE_TOO_MANY_REDIRECTS` (numeric value 47). -/
def CURLE_TOO_MANY_REDIRECTS : Nat := 47

/-- Built-in default for the redirect budget (main.cpp:42). -/
def default_max_redirects : Int := 5

/-- Built-in default for the time budget in milliseconds (main.cpp:48). -/
def default_max_time_ms : Int := 500

/-- Wrap an integer to the range of a 32-bit signed `int` (the LP64 narrowing
conversion applied when a `long long` is stored into an `int`). -/
def toInt32 (x : Int) : Int := (x + 2 ^ 31) % 2 ^ 32 - 2 ^ 31

/-- Wrap an integer to the range of a 64-bit signed integer (`GetInt64`). -/
def toInt64 (x : Int) : Int := (x + 2 ^ 63) % 2 ^ 64 - 2 ^ 63

/-- The per-call option state of the shared curl easy handle: every option the
program touches via `curl_easy_setopt`. Longs are embedded as `Int`. -/
structure CurlHandle where
  url : String
  timeout_ms : Int
  connecttimeout_ms : Int
  followlocation : Int
  maxredirs : Int
  ssl_verifypeer : Int
  ssl_verifyhost : Int
  nobody : Int
  maxconnects : Int
deriving Repr, DecidableEq

/-- Option defaults of a fresh handle from `curl_easy_init` (libcurl documented
defaults: no timeout, 300 s connect timeout, redirects not followed,
unlimited `MAXREDIRS`, TLS verification on, GET with body, 5 cached
connections). -/
def curlDefaultHandle : CurlHandle :=
  { url := ""
    timeout_ms := 0
    connecttimeout_ms := 300000
    followlocation := 0
    maxredirs := -1
    ssl_verifypeer := 1
    ssl_verifyhost := 2
    nobody := 0
    maxconnects := 5 }

/-- The handle as configured by `main` at startup (main.cpp:252-269): TLS peer
and host verification disabled, HEAD requests, connection cache set to
`max_connections`. -/
def mainInitHandle (max_connections : Int) : CurlHandle :=
  { curlDefaultHandle with
      ssl_verifypeer := 0
      ssl_verifyhost := 0
      nobody := 1
      maxconnects := max_connections }

/-- Behaviour of the network for one transport call, as the spec models the
transport: either a redirect chain (the successive redirect targets from the
requested URL; `[]` means the requested URL answers with a non-redirect
status, and the last element of a non-empty chain is the terminal
non-redirect URL) that is traversed within the time budget, or a
transport-level failure with a CURLcode. -/
inductive Network where
  | chain (hops : List String)
  | failure (code : Nat)
deriving Repr, DecidableEq

/-- What the program can observe of one `curl_easy_perform` call: its return
code and the two post-hoc infos `CURLINFO_REDIRECT_URL` and
`CURLINFO_EFFECTIVE_URL` (NULL embedded as `none`). -/
structure CurlOutcome where
  res : Nat
  redirect_url : Option String
  effective_url : Option String
deriving Repr, DecidableEq

/-- `curl_easy_perform` plus the two `curl_easy_getinfo` reads, as a function
of the handle options and the network. With `CURLOPT_FOLLOWLOCATION` unset,
the single response's redirect target (if any) is reported as
`CURLINFO_REDIRECT_URL` and the effective URL is the requested one. With
auto-follow enabled and a non-negative `CURLOPT_MAXREDIRS` of `m`, curl
follows up to `m` redirects: a chain of at most `m` hops completes cleanly at
the terminal URL; a longer chain stops after `m` hops with
`CURLE_TOO_MANY_REDIRECTS`, the unconsumed next hop (hop number `m + 1`)
retrievable as `CURLINFO_REDIRECT_URL`. A negative `MAXREDIRS` means
unlimited. A transport failure yields its code with no retrievable URL. -/
def perform_curl (h : CurlHandle) (net : Network) : CurlOutcome :=
  match net with
  | .failure c => { res := c, redirect_url := none, effective_url := none }
  | .chain hops =>
    if h.followlocation ≠ 0 then
      if h.maxredirs < 0 ∨ (hops.length : Int) ≤ h.maxredirs then
        { res := CURLE_OK
          redirect_url := none
          effective_url := some (hops.getLastD h.url) }
      else
        { res := CURLE_TOO_MANY_REDIRECTS
          redirect_url := hops.get? h.maxredirs.toNat
          effective_url := (h.url :: hops).get? h.maxredirs.toNat }
    else
      { res := CURLE_OK
        redirect_url := hops.head?
        effective_url := some h.url }

/-- Result of `expand_url`: `ok` bundles a `CURLE_OK` return with the two
output parameters `output_url` and `reached_redirect_limit`; `err c` is a
non-`CURLE_OK` return code `c` (output parameters not valid). -/
inductive ExpandResult where
  | ok (output_url : String) (reached_redirect_limit : Bool)
  | err (code : Nat)
deriving Repr, DecidableEq

/-- The request-specific `curl_easy_setopt` calls before the transport call
(main.cpp:70-75): URL, time budget, and — only when `max_redirects > 0` —
auto-follow with cap `max_redirects`. -/
def setRequestOpts (h : CurlHandle) (url : String) (max_time_ms max_redirects : Int) :
    CurlHandle :=
  let h1 := { h with url := url, timeout_ms := max_time_ms }
  if max_redirects > 0 then
    { h1 with followlocation := 1, maxredirs := max_redirects }
  else h1

/-- The `curl_easy_setopt` calls after the transport call (main.cpp:79-83):
`TIMEOUT_MS` and `CONNECTTIMEOUT_MS` are set to `max_time_ms`,
`FOLLOWLOCATION` to 0 and `MAXREDIRS` to -1. -/
def restoreOpts (h : CurlHandle) (max_time_ms : Int) : CurlHandle :=
  { h with
      timeout_ms := max_time_ms
      connecttimeout_ms := max_time_ms
      followlocation := 0
      maxredirs := -1 }

/-- The outcome classification of `expand_url` (main.cpp:85-117): any failure
other than `CURLE_TOO_MANY_REDIRECTS` is returned as-is; otherwise the
redirect URL, if present, is the output with the limit flag set; otherwise
the effective URL is the output with the flag clear; otherwise the
`CURLE_FAILED_INIT` sentinel. -/
def expand_url_classify (o : CurlOutcome) : ExpandResult :=
  if o.res ≠ CURLE_OK ∧ o.res ≠ CURLE_TOO_MANY_REDIRECTS then
    .err o.res
  else
    match o.redirect_url with
    | some u => .ok u true
    | none =>
      match o.effective_url with
      | some u => .ok u false
      | none => .err CURLE_FAILED_INIT

/-- `expand_url` (main.cpp:65-118): configure the handle, perform one
transport call, restore the request-specific options, classify the outcome.
Returns the classified result together with the handle state left behind for
the next invocation. -/
def expand_url (h : CurlHandle) (net : Network) (url : String)
    (max_time_ms max_redirects : Int) : ExpandResult × CurlHandle :=
  let h2 := setRequestOpts h url max_time_ms max_redirects
  let o := perform_curl h2 net
  (expand_url_classify o, restoreOpts h2 max_time_ms)

/-- The service request payload as the handler observes it (main.cpp:156-174):
whether the JSON parsed, and the three fields. `GetInt64` values are wrapped
to 64-bit signed range by `toInt64` at the read. -/
structure Payload where
  parse_ok : Bool
  url : Option String
  max_time_ms : Option Int
  max_redirects : Option Int
deriving Repr, DecidableEq

/-- The service response payload built at main.cpp:184-197. `duration_ms` and
`error_code` are unconditional fields; the other three are present (`some`)
exactly as the code adds them. -/
structure LambdaResponse where
  duration_ms : Int
  error_code : Int
  expanded_url : Option String
  reached_redirect_limit : Option Bool
  error_message : Option String
deriving Repr, DecidableEq

/-- `curl_easy_strerror`, abstracted: some human-readable description of the
code. Only its presence matters to the program. -/
def curl_easy_strerror (c : Nat) : String := "curl error " ++ toString c

/-- Response construction (main.cpp:184-197): always `duration_ms`; on
`CURLE_OK` the success fields, otherwise the error fields. -/
def buildResponse (res : ExpandResult) (duration_ms : Int) : LambdaResponse :=
  match res with
  | .ok u limit =>
    { duration_ms := duration_ms
      error_code := 0
      expanded_url := some u
      reached_redirect_limit := some limit
      error_message := none }
  | .err c =>
    { duration_ms := duration_ms
      error_code := (c : Int)
      expanded_url := none
      reached_redirect_limit := none
      error_message := some (curl_easy_strerror c) }

/-- A handler invocation ends either in an early client-error response
(`invocation_response::failure(message, errorType)`) or in a JSON response
after calling the resolver. -/
inductive HandlerResult where
  | clientError (message : String) (errorType : String)
  | response (r : LambdaResponse)
deriving Repr, DecidableEq

/-- Budget extraction of the service adapter (main.cpp:167-174):
`max_time_ms` is a C `long` initialized from the default and overwritten by
`GetInt64` (no narrowing on LP64); `max_redirects` is a C `int`, so both the
default and the `GetInt64` value are narrowed through `toInt32`. -/
def handler_budgets (p : Payload) : Int × Int :=
  (match p.max_time_ms with
    | some v => toInt64 v
    | none => default_max_time_ms,
   match p.max_redirects with
    | some v => toInt32 (toInt64 v)
    | none => toInt32 default_max_redirects)

/-- `expand_url_handler` (main.cpp:152-198). The third component counts the
calls made to `expand_url` (the transport attempt) during the invocation,
and the second is the handle state left behind. -/
def expand_url_handler (p : Payload) (h : CurlHandle) (net : Network)
    (duration_ms : Int) : HandlerResult × CurlHandle × Nat :=
  if p.parse_ok = false then
    (.clientError "Failed to parse input JSON" "InvalidJSON", h, 0)
  else
    match p.url with
    | none => (.clientError "Missing URL argument" "InvalidJSON", h, 0)
    | some url =>
      let b := handler_budgets p
      let r := expand_url h net url b.1 b.2
      (.response (buildResponse r.1 duration_ms), r.2, 1)

/-- Tail of `split` (main.cpp:203-218) on character lists: accumulate the
current token (reversed) and emit the non-empty tokens separated by spaces. -/
def splitAux (cur : List Char) : List Char → List (List Char)
  | [] => if cur.isEmpty then [] else [cur.reverse]
  | c :: rest =>
    if c = ' ' then
      if cur.isEmpty then splitAux [] rest else cur.reverse :: splitAux [] rest
    else splitAux (c :: cur) rest

/-- `split` with the default " " delimiter (main.cpp:203-218): the non-empty
space-separated tokens of the line, in order. -/
def split (s : String) : List String := (splitAux [] s.toList).map List.asString

/-- Leading decimal digits of a character list, as digit values. -/
def leadingDigits : List Char → List Nat
  | c :: rest => if c.isDigit then (c.toNat - 48) :: leadingDigits rest else []
  | [] => []

/-- Value of a digit sequence, most significant first. -/
def digitsVal (ds : List Nat) : Int := ds.foldl (fun a d => a * 10 + (d : Int)) 0

/-- The numeric prefix accepted by C++ `std::stoll` / `std::stoi`: optional
whitespace, optional sign, then at least one decimal digit; `none` when
there is no digit (`std::invalid_argument`). -/
def parsedNumber (s : String) : Option Int :=
  let cs := s.toList.dropWhile Char.isWhitespace
  let p : Int × List Char :=
    match cs with
    | '-' :: r => (-1, r)
    | '+' :: r => (1, r)
    | _ => (1, cs)
  let ds := leadingDigits p.2
  if ds.isEmpty then none else some (p.1 * digitsVal ds)

/-- `std::stoll` as called at main.cpp:286: `.error ()` models the exception
it throws on a non-numeric field (`std::invalid_argument`) or on 64-bit
overflow (`std::out_of_range`). -/
def stoll (s : String) : Except Unit Int :=
  match parsedNumber s with
  | none => .error ()
  | some v => if -(2 ^ 63) ≤ v ∧ v < 2 ^ 63 then .ok v else .error ()

/-- `std::stoi` as called at main.cpp:289: like `stoll` with the 32-bit
`int` range. -/
def stoi (s : String) : Except Unit Int :=
  match parsedNumber s with
  | none => .error ()
  | some v => if -(2 ^ 31) ≤ v ∧ v < 2 ^ 31 then .ok v else .error ()

/-- The observable outcome of one batch line: skipped (empty after
tokenizing), a stdout success line, or a stderr failure line. -/
inductive LineOutcome where
  | skipped
  | success (url : String) (expanded : String) (reached_redirect_limit : Bool)
  | failure (url : String) (code : Nat)
deriving Repr, DecidableEq

/-- One iteration of the batch loop (main.cpp:277-304). `netOf` gives the
network behaviour of each URL. `.error ()` is an uncaught exception escaping
from `std::stoll` / `std::stoi`: there is no try/catch in `main`, so it
propagates out of the loop. -/
def processLine (netOf : String → Network) (h : CurlHandle) (line : String) :
    Except Unit (LineOutcome × CurlHandle) := do
  match split line with
  | [] => .ok (.skipped, h)
  | url :: rest =>
    let max_time_ms : Int ←
      match rest with
      | [] => .ok default_max_time_ms
      | t :: _ => stoll t
    let max_redirects : Int ←
      match rest with
      | _ :: r :: _ => stoi r
      | _ => .ok (toInt32 default_max_redirects)
    let res := expand_url h (netOf url) url max_time_ms max_redirects
    match res.1 with
    | .ok u limit => .ok (.success url u limit, res.2)
    | .err c => .ok (.failure url c, res.2)

/-- The batch loop over the whole input (main.cpp:277-305): the outcomes of
the processed lines in order, and whether the process was terminated by an
uncaught exception (in which case the remaining lines are never read). -/
def batchRun (netOf : String → Network) : CurlHandle → List String →
    List LineOutcome × Bool
  | _, [] => ([], false)
  | h, line :: rest =>
    match processLine netOf h line with
    | .error _ => ([], true)
    | .ok (out, h2) =>
      let p := batchRun netOf h2 rest
      (out :: p.1, p.2)

/-- Whether a line's optional numeric fields all parse, i.e. `processLine`
raises no exception on it. -/
def lineParses (line : String) : Bool :=
  match split line with
  | [] => true
  | _ :: rest =>
    (match rest with
     | [] => true
     | t :: _ => (stoll t).isOk) &&
    (match rest with
     | _ :: r :: _ => (stoi r).isOk
     | _ => true)

/-- A sequence of resolver invocations threaded through the shared handle,
as the service loop performs them one per request. -/
def runCalls : CurlHandle → List (Network × String × Int × Int) → CurlHandle
  | h, [] => h
  | h, (net, url, t, m) :: rest => runCalls (expand_url h net url t m).2 rest

/-- The response-payload invariant of the service adapter: `duration_ms` is
the measured duration, and exactly one of the success variant
(`error_code = 0`, `expanded_url` and `reached_redirect_limit` present, no
`error_message`) and the failure variant (`error_code ≠ 0`, `error_message`
present, neither success field) is populated. -/
def responseExclusive (r : LambdaResponse) (d : Int) : Prop :=
  r.duration_ms = d ∧
  ((r.error_code = 0 ∧ r.expanded_url.isSome = true ∧
      r.reached_redirect_limit.isSome = true ∧ r.error_message = none) ∨
   (r.error_code ≠ 0 ∧ r.error_message.isSome = true ∧
      r.expanded_url = none ∧ r.reached_redirect_limit = none))

/-- Whether a handler outcome is a client-error response in the
"InvalidJSON" category. -/
def isInvalidJsonError : HandlerResult → Bool
  | .clientError _ et => et = "InvalidJSON"
  | .response _ => false

/-- Helper: `setRequestOpts` never touches the TLS verification options. -/
theorem setRequestOpts_ssl (h : CurlHandle) (url : String) (t m : Int) :
    (setRequestOpts h url t m).ssl_verifypeer = h.ssl_verifypeer ∧
    (setRequestOpts h url t m).ssl_verifyhost = h.ssl_verifyhost := by
  unfold setRequestOpts
  by_cases hm : m > 0 <;> simp [hm]

/-- C1: For every resolution request, modelling the transport as a redirect
chain from the requested URL: if the chain length is at most `max_redirects`
then `expand_url` returns success (CURLE_OK) with
`reached_redirect_limit = false` and the chain's terminal URL; if the chain
length exceeds `max_redirects` it returns success with
`reached_redirect_limit = true` and the URL at hop number
`max_redirects + 1` (the requested URL being hop 0, `hops.get m` is the URL
reached by hop `m + 1`). The hypothesis `hf` holds for every handle state the
program reaches (auto-follow is off initially and restored to off after each
call). -/
theorem expand_url_chain_resolution (h : CurlHandle) (hops : List String)
    (url : String) (t : Int) (m : Nat) (hf : h.followlocation = 0) :
    (hops.length ≤ m →
      (expand_url h (.chain hops) url t (m : Int)).1 = .ok (hops.getLastD url) false) ∧
    (∀ hm : m < hops.length,
      (expand_url h (.chain hops) url t (m : Int)).1 = .ok (hops.get ⟨m, hm⟩) true) := by
  constructor
  · intro hle
    rcases Nat.eq_zero_or_pos m with hm0 | hmpos
    · subst hm0
      have hnil : hops = [] := List.eq_nil_of_length_eq_zero (Nat.le_zero.mp hle)
      subst hnil
      simp [expand_url, setRequestOpts, perform_curl, expand_url_classify, hf,
        CURLE_OK, CURLE_TOO_MANY_REDIRECTS, List.getLastD]
    · have hgt : (0 : Int) < (m : Int) := by exact_mod_cast hmpos
      have hlen : (hops.length : Int) ≤ (m : Int) := by exact_mod_cast hle
      simp [expand_url, setRequestOpts, perform_curl, expand_url_classify, hgt, hlen,
        CURLE_OK, CURLE_TOO_MANY_REDIRECTS]
  · intro hm
    rcases Nat.eq_zero_or_pos m with hm0 | hmpos
    · subst hm0
      obtain ⟨u1, rest, rfl⟩ : ∃ u1 rest, hops = u1 :: rest := by
        cases hops with
        | nil => simp at hm
        | cons a l => exact ⟨a, l, rfl⟩
      simp [expand_url, setRequestOpts, perform_curl, expand_url_classify, hf,
        CURLE_OK, CURLE_TOO_MANY_REDIRECTS]
    · have hgt : (0 : Int) < (m : Int) := by exact_mod_cast hmpos
      have hlen1 : ¬((hops.length : Int) ≤ (m : Int)) := by
        exact_mod_cast Nat.not_le.mpr hm
      have hnneg : ¬((m : Int) < 0) := by omega
      have hget : hops[m]? = some hops[m] := List.getElem?_eq_getElem hm
      simp [expand_url, setRequestOpts, perform_curl, expand_url_classify, hgt, hlen1,
        hnneg, hget, CURLE_OK, CURLE_TOO_MANY_REDIRECTS]

/-- Witness for C1: a three-hop chain under budget resolves to the terminal
URL with the flag clear; the same chain with budget 1 yields the URL at hop 2
with the flag set. -/
theorem expand_url_chain_resolution_witness :
    (expand_url (mainInitHandle 500) (.chain ["a", "b", "c"]) "u" 500 5).1 =
      .ok "c" false ∧
    (expand_url (mainInitHandle 500) (.chain ["a", "b", "c"]) "u" 500 1).1 =
      .ok "b" true :=
  ⟨(expand_url_chain_resolution (mainInitHandle 500) ["a", "b", "c"] "u" 500 5 rfl).1
      (by decide),
   (expand_url_chain_resolution (mainInitHandle 500) ["a", "b", "c"] "u" 500 1 rfl).2
      (by decide)⟩

/-- Helper: the outcome classification never yields the
`CURLE_TOO_MANY_REDIRECTS` code as an error. -/
theorem classify_ne_too_many (o : CurlOutcome) :
    expand_url_classify o ≠ .err CURLE_TOO_MANY_REDIRECTS := by
  obtain ⟨res, ru, eu⟩ := o
  unfold expand_url_classify
  by_cases hc : res ≠ CURLE_OK ∧ res ≠ CURLE_TOO_MANY_REDIRECTS
  · rw [if_pos hc]
    intro hEq
    exact hc.2 (by simpa using hEq)
  · rw [if_neg hc]
    rcases ru with _ | u
    · rcases eu with _ | v
      · simp [CURLE_FAILED_INIT, CURLE_TOO_MANY_REDIRECTS]
      · simp
    · simp

/-- C2: When the transport call ends with `CURLE_TOO_MANY_REDIRECTS` (the
next-hop URL being retrievable after such a failure, per the transport
contract), `expand_url` returns that next-hop URL with
`reached_redirect_limit = true` as a success; and `expand_url` never returns
`CURLE_TOO_MANY_REDIRECTS` to its caller for any transport behaviour. -/
theorem expand_url_no_too_many_redirects (o : CurlOutcome) (u : String)
    (hres : o.res = CURLE_TOO_MANY_REDIRECTS) (hu : o.redirect_url = some u) :
    expand_url_classify o = .ok u true ∧
    ∀ h net url t m, (expand_url h net url t m).1 ≠ .err CURLE_TOO_MANY_REDIRECTS := by
  constructor
  · unfold expand_url_classify
    simp [hres, hu, CURLE_TOO_MANY_REDIRECTS, CURLE_OK]
  · intro h net url t m
    exact classify_ne_too_many _

/-- Witness for C2 at a concrete cap-exceeded outcome. -/
theorem expand_url_no_too_many_redirects_witness :
    expand_url_classify ⟨47, some "n", none⟩ = .ok "n" true ∧
    (expand_url (mainInitHandle 500) (.chain ["a", "b"]) "u" 500 1).1 ≠
      .err CURLE_TOO_MANY_REDIRECTS :=
  ⟨(expand_url_no_too_many_redirects ⟨47, some "n", none⟩ "n" rfl rfl).1,
   (expand_url_no_too_many_redirects ⟨47, some "n", none⟩ "n" rfl rfl).2
      (mainInitHandle 500) (.chain ["a", "b"]) "u" 500 1⟩

/-- C3: With `max_redirects = 0` auto-follow is not enabled at the transport
layer (`FOLLOWLOCATION` stays 0 on the handle configured for the call), and:
if the target URL answers with a redirect the result is success with
`reached_redirect_limit = true` and the redirect's target; if it answers with
a non-redirect status the result is success with
`reached_redirect_limit = false` and the requested URL. -/
theorem expand_url_zero_max_redirects (h : CurlHandle) (hops : List String)
    (url : String) (t : Int) (hf : h.followlocation = 0) :
    (setRequestOpts h url t 0).followlocation = 0 ∧
    (hops = [] → (expand_url h (.chain hops) url t 0).1 = .ok url false) ∧
    (∀ u1 rest, hops = u1 :: rest →
      (expand_url h (.chain hops) url t 0).1 = .ok u1 true) := by
  refine ⟨?_, ?_, ?_⟩
  · simp [setRequestOpts, hf]
  · rintro rfl
    simp [expand_url, setRequestOpts, perform_curl, expand_url_classify, hf,
      CURLE_OK, CURLE_TOO_MANY_REDIRECTS]
  · rintro u1 rest rfl
    simp [expand_url, setRequestOpts, perform_curl, expand_url_classify, hf,
      CURLE_OK, CURLE_TOO_MANY_REDIRECTS]

/-- Witness for C3: a non-redirecting URL and a redirecting URL, both with
`max_redirects = 0`. -/
theorem expand_url_zero_max_redirects_witness :
    (setRequestOpts (mainInitHandle 500) "u" 500 0).followlocation = 0 ∧
    (expand_url (mainInitHandle 500) (.chain []) "u" 500 0).1 = .ok "u" false ∧
    (expand_url (mainInitHandle 500) (.chain ["x", "y"]) "u" 500 0).1 = .ok "x" true :=
  ⟨(expand_url_zero_max_redirects (mainInitHandle 500) [] "u" 500 rfl).1,
   (expand_url_zero_max_redirects (mainInitHandle 500) [] "u" 500 rfl).2.1 rfl,
   (expand_url_zero_max_redirects (mainInitHandle 500) ["x", "y"] "u" 500 rfl).2.2
      "x" ["y"] rfl⟩

/-- C4 is refuted by the code: after a call with `max_time_ms = 1234` the
time-budget options are left at the per-call value 1234 (not a neutral
default; the fresh-handle connect timeout is 300000), and since
`CONNECTTIMEOUT_MS` is never set before a call, the handle configured for the
next call still carries 1234 — per-call configuration leaks into the next
resolution, contradicting the code's own comment "Restore request-specific
options to defaults". -/
theorem expand_url_timeout_not_reset :
    (expand_url (mainInitHandle 500) (.chain []) "u" 1234 5).2.timeout_ms = 1234 ∧
    (expand_url (mainInitHandle 500) (.chain []) "u" 1234 5).2.connecttimeout_ms = 1234 ∧
    (mainInitHandle 500).connecttimeout_ms = 300000 ∧
    (setRequestOpts (expand_url (mainInitHandle 500) (.chain []) "u" 1234 5).2
        "v" 99999 5).connecttimeout_ms = 1234 ∧
    (expand_url (mainInitHandle 500) (.chain []) "u" 5678 5).2.timeout_ms = 5678 :=
  ⟨rfl, rfl, rfl, rfl, rfl⟩

/-- Helper: every error code the classification can return is non-zero. -/
theorem classify_err_ne_zero (o : CurlOutcome) (c : Nat)
    (hc : expand_url_classify o = .err c) : c ≠ 0 := by
  obtain ⟨res, ru, eu⟩ := o
  unfold expand_url_classify at hc
  by_cases hcond : res ≠ CURLE_OK ∧ res ≠ CURLE_TOO_MANY_REDIRECTS
  · rw [if_pos hcond] at hc
    have : res = c := by simpa using hc
    subst this
    simpa [CURLE_OK] using hcond.1
  · rw [if_neg hcond] at hc
    rcases ru with _ | u
    · rcases eu with _ | v
      · have : CURLE_FAILED_INIT = c := by simpa using hc
        subst this
        simp [CURLE_FAILED_INIT]
      · simp at hc
    · simp at hc

/-- C5: Every service response the handler produces after a transport attempt
satisfies the exclusivity invariant: it contains the measured `duration_ms`,
and exactly one of the success variant (`error_code = 0`, `expanded_url` and
`reached_redirect_limit` present, no `error_message`) and the failure variant
(`error_code ≠ 0`, `error_message` present, no success fields) is
populated. -/
theorem handler_response_exclusive (p : Payload) (h : CurlHandle) (net : Network)
    (d : Int) (r : LambdaResponse) (h2 : CurlHandle) (n : Nat)
    (hr : expand_url_handler p h net d = (.response r, h2, n)) :
    responseExclusive r d := by
  unfold expand_url_handler at hr
  by_cases hp : p.parse_ok = false
  · rw [if_pos hp] at hr
    exact absurd (congrArg Prod.fst hr) (by simp)
  · rw [if_neg hp] at hr
    rcases hu : p.url with _ | url
    · rw [hu] at hr
      exact absurd (congrArg Prod.fst hr) (by simp)
    · rw [hu] at hr
      simp only [Prod.mk.injEq] at hr
      have hrr : r = buildResponse
          (expand_url h net url (handler_budgets p).1 (handler_budgets p).2).1 d := by
        have := hr.1
        injection this with h1
        exact h1.symm
      cases hres : (expand_url h net url (handler_budgets p).1 (handler_budgets p).2).1 with
      | ok u limit =>
        rw [hres] at hrr
        subst hrr
        exact ⟨rfl, Or.inl ⟨rfl, rfl, rfl, rfl⟩⟩
      | err c =>
        rw [hres] at hrr
        subst hrr
        have hcz : c ≠ 0 := classify_err_ne_zero _ c (by
          have heq : (expand_url h net url (handler_budgets p).1 (handler_budgets p).2).1 =
            expand_url_classify (perform_curl
              (setRequestOpts h url (handler_budgets p).1 (handler_budgets p).2) net) := rfl
          rw [← heq, hres])
        refine ⟨rfl, Or.inr ⟨?_, rfl, rfl, rfl⟩⟩
        simp only [buildResponse]
        exact_mod_cast hcz

/-- Witness for C5 at a concrete successful invocation. -/
theorem handler_response_exclusive_witness :
    responseExclusive
      { duration_ms := 7, error_code := 0, expanded_url := some "u",
        reached_redirect_limit := some false, error_message := none } 7 :=
  handler_response_exclusive ⟨true, some "u", none, none⟩ (mainInitHandle 500)
    (.chain []) 7 _ _ _ rfl

/-- C6: For every request whose payload is unparsable or lacks the `url`
field, the handler returns a client-error response in the "InvalidJSON"
category, leaves the handle untouched, and makes no transport call
(`expand_url` invocation count 0). -/
theorem handler_invalid_json_no_transport (p : Payload) (h : CurlHandle)
    (net : Network) (d : Int) (hbad : p.parse_ok = false ∨ p.url = none) :
    isInvalidJsonError (expand_url_handler p h net d).1 = true ∧
    (expand_url_handler p h net d).2.1 = h ∧
    (expand_url_handler p h net d).2.2 = 0 := by
  unfold expand_url_handler
  rcases hbad with hb | hb
  · rw [if_pos hb]
    exact ⟨rfl, rfl, rfl⟩
  · by_cases hp : p.parse_ok = false
    · rw [if_pos hp]
      exact ⟨rfl, rfl, rfl⟩
    · rw [if_neg hp, hb]
      exact ⟨rfl, rfl, rfl⟩

/-- Witness for C6: a parsable payload with no `url` field. -/
theorem handler_invalid_json_no_transport_witness :
    isInvalidJsonError (expand_url_handler ⟨true, none, none, none⟩
      (mainInitHandle 500) (.chain []) 0).1 = true ∧
    (expand_url_handler ⟨true, none, none, none⟩ (mainInitHandle 500)
      (.chain []) 0).2.1 = mainInitHandle 500 ∧
    (expand_url_handler ⟨true, none, none, none⟩ (mainInitHandle 500)
      (.chain []) 0).2.2 = 0 :=
  handler_invalid_json_no_transport ⟨true, none, none, none⟩ (mainInitHandle 500)
    (.chain []) 0 (Or.inr rfl)

/-- Counterexample to C7: on the input lines `"http://a notanumber"` then
`"http://b"`, the first line's numeric field fails to parse, `std::stoll`
throws an uncaught exception, and the process aborts: no line outcome is
produced and the second line is never processed — the malformed line is not
skipped and it does prevent processing of subsequent lines. -/
theorem batch_malformed_numeric_aborts :
    batchRun (fun _ => .chain []) (mainInitHandle 500)
      ["http://a notanumber", "http://b"] = ([], true) := rfl

/-- Helper: a line whose numeric fields parse is processed without an
exception. -/
theorem processLine_isOk (netOf : String → Network) (h : CurlHandle) (line : String)
    (hp : lineParses line = true) :
    (processLine netOf h line).isOk = true := by
  unfold processLine
  unfold lineParses at hp
  cases hsplit : split line with
  | nil => rfl
  | cons url rest =>
    rw [hsplit] at hp
    rcases rest with _ | ⟨t, rest2⟩
    · simp only [bind, Except.bind]
      split <;> rfl
    · rcases rest2 with _ | ⟨r2, rest3⟩
      · rcases hstoll : stoll t with e | v
        · simp [hstoll, Except.isOk, Except.toBool] at hp
        · simp only [bind, Except.bind, hstoll]
          split <;> rfl
      · rcases hstoll : stoll t with e | v
        · simp [hstoll, Except.isOk, Except.toBool] at hp
        · rcases hstoi : stoi r2 with e | w
          · simp [hstoi, Except.isOk, Except.toBool] at hp
          · simp only [bind, Except.bind, hstoll, hstoi]
            split <;> rfl

/-- C7 as amended: batch mode processes every line to end-of-input — empty
lines skipped, a resolution failure on one line not preventing the following
lines — provided every line's optional numeric fields parse; a line with an
unparsable numeric field instead raises an uncaught exception that terminates
the whole process (see the counterexample). -/
theorem batch_wellformed_lines_all_processed (netOf : String → Network)
    (h : CurlHandle) (lines : List String)
    (hl : ∀ l ∈ lines, lineParses l = true) :
    (batchRun netOf h lines).2 = false ∧
    (batchRun netOf h lines).1.length = lines.length := by
  induction lines generalizing h with
  | nil => exact ⟨rfl, rfl⟩
  | cons line rest ih =>
    have hok := processLine_isOk netOf h line (hl line (by simp))
    cases hpl : processLine netOf h line with
    | error e =>
      rw [hpl] at hok
      simp [Except.isOk, Except.toBool] at hok
    | ok out2 =>
      obtain ⟨out, h2⟩ := out2
      have hrest := ih h2 (fun l hm => hl l (by simp [hm]))
      unfold batchRun
      rw [hpl]
      simp only [List.length_cons]
      exact ⟨hrest.1, by rw [hrest.2]⟩

/-- Witness for the amended C7: the first line's resolution fails at the
transport, yet both lines are processed and the process does not abort. -/
theorem batch_wellformed_lines_all_processed_witness :
    (batchRun (fun u => if u = "http://a" then .failure 7 else .chain [])
      (mainInitHandle 500) ["http://a", "http://b 100 0"]).2 = false ∧
    (batchRun (fun u => if u = "http://a" then .failure 7 else .chain [])
      (mainInitHandle 500) ["http://a", "http://b 100 0"]).1.length = 2 :=
  batch_wellformed_lines_all_processed _ (mainInitHandle 500)
    ["http://a", "http://b 100 0"] (by decide)

/-- C8: When the transport reports success (`CURLE_OK`) but neither a
next-hop URL nor an effective URL is retrievable, `expand_url` returns the
fixed `CURLE_FAILED_INIT` sentinel as a failure — an error result distinct
from success, never a success result. -/
theorem expand_url_success_no_url_sentinel (o : CurlOutcome)
    (hres : o.res = CURLE_OK) (hru : o.redirect_url = none)
    (heu : o.effective_url = none) :
    expand_url_classify o = .err CURLE_FAILED_INIT ∧ CURLE_FAILED_INIT ≠ CURLE_OK := by
  obtain ⟨res, ru, eu⟩ := o
  cases hres
  cases hru
  cases heu
  exact ⟨rfl, by decide⟩

/-- Witness for C8 at the concrete degenerate outcome. -/
theorem expand_url_success_no_url_sentinel_witness :
    expand_url_classify ⟨0, none, none⟩ = .err 2 ∧ CURLE_FAILED_INIT ≠ CURLE_OK :=
  expand_url_success_no_url_sentinel ⟨0, none, none⟩ rfl rfl rfl

/-- Helper: one `expand_url` call leaves the TLS verification options of the
handle unchanged. -/
theorem expand_url_preserves_ssl (h : CurlHandle) (net : Network) (url : String)
    (t m : Int) :
    (expand_url h net url t m).2.ssl_verifypeer = h.ssl_verifypeer ∧
    (expand_url h net url t m).2.ssl_verifyhost = h.ssl_verifyhost := by
  unfold expand_url restoreOpts setRequestOpts
  by_cases hm : m > 0 <;> simp [hm]

/-- Helper: the TLS verification options survive any sequence of resolver
invocations unchanged. -/
theorem runCalls_ssl (h : CurlHandle) (calls : List (Network × String × Int × Int)) :
    (runCalls h calls).ssl_verifypeer = h.ssl_verifypeer ∧
    (runCalls h calls).ssl_verifyhost = h.ssl_verifyhost := by
  induction calls generalizing h with
  | nil => exact ⟨rfl, rfl⟩
  | cons c rest ih =>
    obtain ⟨net, url, t, m⟩ := c
    have hp := expand_url_preserves_ssl h net url t m
    have hr := ih (expand_url h net url t m).2
    unfold runCalls
    exact ⟨hr.1.trans hp.1, hr.2.trans hp.2⟩

/-- C9: The handle is configured at startup with TLS peer and host
verification disabled, and after any sequence of resolver invocations both
options are still disabled — including on the handle as configured for the
next transport call — so no request ever validates the server's TLS
certificate. -/
theorem ssl_verification_always_disabled (mc : Int)
    (calls : List (Network × String × Int × Int)) (url : String) (t m : Int) :
    (mainInitHandle mc).ssl_verifypeer = 0 ∧
    (mainInitHandle mc).ssl_verifyhost = 0 ∧
    (runCalls (mainInitHandle mc) calls).ssl_verifypeer = 0 ∧
    (runCalls (mainInitHandle mc) calls).ssl_verifyhost = 0 ∧
    (setRequestOpts (runCalls (mainInitHandle mc) calls) url t m).ssl_verifypeer = 0 ∧
    (setRequestOpts (runCalls (mainInitHandle mc) calls) url t m).ssl_verifyhost = 0 := by
  have hr := runCalls_ssl (mainInitHandle mc) calls
  have hs := setRequestOpts_ssl (runCalls (mainInitHandle mc) calls) url t m
  exact ⟨rfl, rfl, hr.1.trans rfl, hr.2.trans rfl,
    hs.1.trans (hr.1.trans rfl), hs.2.trans (hr.2.trans rfl)⟩

/-- C10: The service adapter reads `max_redirects` as a 64-bit integer but
stores it in a machine `int`, so the redirect cap actually applied is the
requested value wrapped modulo 2^32, while `max_time_ms` is kept in a `long`
and passed through unchanged; concretely, a requested cap of `2^32 + 7`
becomes 7, and on an 8-hop chain the handler then reports the redirect limit
reached. -/
theorem handler_max_redirects_truncation (v : Int)
    (hv : -(2 ^ 63) ≤ v ∧ v < 2 ^ 63) (p : Payload)
    (hmr : p.max_redirects = some v) (hmt : p.max_time_ms = some v) :
    (handler_budgets p).2 = toInt32 v ∧ (handler_budgets p).1 = v ∧
    toInt32 (2 ^ 32 + 7) = 7 ∧ ((2 ^ 32 + 7 : Int)) ≠ 7 ∧
    (expand_url_handler ⟨true, some "u", none, some (2 ^ 32 + 7)⟩ (mainInitHandle 500)
        (.chain ["a", "b", "c", "d", "e", "f", "g", "t"]) 3).1 =
      .response (buildResponse (.ok "t" true) 3) := by
  have h64 : toInt64 v = v := by
    unfold toInt64
    omega
  refine ⟨?_, ?_, by decide, by decide, rfl⟩
  · simp [handler_budgets, hmr, h64]
  · simp [handler_budgets, hmt, h64]

/-- Witness for C10 at the concrete payload value `2^32 + 7`. -/
theorem handler_max_redirects_truncation_witness :
    (handler_budgets ⟨true, some "u", some (2 ^ 32 + 7), some (2 ^ 32 + 7)⟩).2 = 7 ∧
    (handler_budgets ⟨true, some "u", some (2 ^ 32 + 7), some (2 ^ 32 + 7)⟩).1 =
      2 ^ 32 + 7 ∧
    toInt32 (2 ^ 32 + 7) = 7 ∧ ((2 ^ 32 + 7 : Int)) ≠ 7 ∧
    (expand_url_handler ⟨true, some "u", none, some (2 ^ 32 + 7)⟩ (mainInitHandle 500)
        (.chain ["a", "b", "c", "d", "e", "f", "g", "t"]) 3).1 =
      .response (buildResponse (.ok "t" true) 3) := by
  have hinst := handler_max_redirects_truncation (2 ^ 32 + 7) (by decide)
    ⟨true, some "u", some (2 ^ 32 + 7), some (2 ^ 32 + 7)⟩ rfl rfl
  exact ⟨hinst.1.trans (by decide), hinst.2⟩
